import Mathlib

/-!
# Verification of `redbot_orm/postgres.py`

A shallow embedding of the PostgreSQL registration module of `red-orm`.

The Python module orchestrates: identity resolution (root path, database
name), database provisioning over an administrative connection, running
migrations through an external `piccolo` executable, engine acquisition
with a timeout, and binding the engine to table classes.

Modelling decisions:
* Python dicts passed by reference are modelled by a `Store` (a list of
  dict values) with `Nat` references, so that `dict.copy()` versus
  in-place mutation is observable, as it is in Python.
* Each `async` function becomes a computation in the monad `M`, which
  threads the store and records a trace of externally visible effects
  (log records, SQL statements, subprocess invocations, pool start,
  table binding).
* External collaborators (`asyncpg`, the `piccolo` engine and
  executable, the filesystem) are oracles in an `Env` record: the
  outcome of each external call is an `Env` field, and the call itself
  is recorded in the trace.
-/

/-- A Python `dict[str, str]` of connection parameters, as an
association list in insertion order. -/
abbrev Dict := List (String × String)

/-- The heap of live dict objects; a dict reference is an index. -/
abbrev Store := List Dict

/-- Python `d[k] = v`: overwrite the value of an existing key in place,
otherwise append the new key at the end (insertion order). -/
def dictSet (d : Dict) (k v : String) : Dict :=
  if d.any (fun p => p.1 == k) then
    d.map (fun p => if p.1 == k then (k, v) else p)
  else
    d ++ [(k, v)]

/-- Modelled from the spec: the exception classes of the repository's
`errors` module (absent from `src/`): `UNCPathError`, `DirectoryError`,
`ConnectionTimeoutError`, plus the database driver's own errors, which
the spec says are propagated unwrapped. -/
inductive Err where
  | UNCPathError (msg : String)
  | DirectoryError (msg : String)
  | ConnectionTimeoutError (msg : String)
  | driverError
deriving Repr, DecidableEq

/-- A plugin identity: a filesystem path (represented by the only
attribute the module reads, its `stem`) or a live cog instance
(represented by its `qualified_name`). -/
inductive CogInstance where
  | path (stem : String)
  | cog (qualified_name : String)
deriving Repr, DecidableEq

/-- Python `str.lower()`, restricted to the ASCII letters (the only
range Lean's `Char.toLower` maps; plugin names are ASCII). -/
def pyLower (s : String) : String :=
  ⟨s.data.map Char.toLower⟩

/-- `db_name` from `postgres.py`: the lowercased path stem for a `Path`
identity, the lowercased qualified name for a cog instance. -/
def db_name : CogInstance → String
  | .path stem => pyLower stem
  | .cog qualified_name => pyLower qualified_name

/-- Does `pre` occur at the head of `l`? -/
def leadMatch : List Char → List Char → Bool
  | [], _ => true
  | _ :: _, [] => false
  | a :: as, b :: bs => a == b && leadMatch as bs

/-- Does `n` occur as a contiguous run inside `h`? -/
def subMatch (n : List Char) : List Char → Bool
  | [] => leadMatch n []
  | c :: t => leadMatch n (c :: t) || subMatch n t

/-- Python `needle in haystack` on strings. -/
def strContains (haystack needle : String) : Bool :=
  subMatch needle.data haystack.data

/-- Externally visible effects of the module, in program order. -/
inductive Effect where
  | logInfo (msg : String)
  | logError (msg : String)
  | logDebug (msg : String)
  | connect (cfg : Dict) (timeout : Nat)
  | fetch (sql : String)
  | execute (sql : String)
  | closeConn
  | shell (cog : CogInstance) (args : List String) (interactive : Bool)
  | engineCtor (cfg : Dict) (extensions : List String)
  | startPool (min_size max_size : Nat)
  | bindTable (table : Nat)
deriving Repr, DecidableEq

/-- The piccolo `PostgresEngine`, opaque except for the configuration
and extension list it was constructed from. -/
structure PostgresEngine where
  config : Dict
  extensions : List String
deriving Repr, DecidableEq

/-- Modelled from the spec: the outcomes of every external collaborator
call, including the repository's `common` module helpers absent from
`src/`: `get_root` (its `stem` and display string), `is_unc_path`, and
`find_piccolo_executable`; plus the database driver's rows and failure
modes, the subprocess output, and whether engine construction exceeds
its timeout. -/
structure Env where
  is_unc : Bool
  is_dir : Bool
  root_stem : String
  root_str : String
  piccolo_path : String
  datnames : List String
  connect_raises : Bool
  fetch_raises : Bool
  execute_raises : Bool
  shell_out : CogInstance → List String → Bool → String
  engine_times_out : Bool

/-- The effectful computation monad: threads the dict store, records an
effect trace, and short-circuits on a raised exception. -/
def M (α : Type) : Type :=
  Store → Except Err α × Store × List Effect

def M.pure {α : Type} (a : α) : M α := fun s => (Except.ok a, s, [])

def M.bind {α β : Type} (x : M α) (f : α → M β) : M β := fun s =>
  match x s with
  | (Except.ok a, s1, t1) =>
    match f a s1 with
    | (r, s2, t2) => (r, s2, t1 ++ t2)
  | (Except.error e, s1, t1) => (Except.error e, s1, t1)

instance : Monad M where
  pure := M.pure
  bind := M.bind

/-- Record one effect. -/
def emit (e : Effect) : M Unit := fun s => (Except.ok (), s, [e])

/-- Python `raise`. -/
def throwErr {α : Type} (e : Err) : M α := fun s => (Except.error e, s, [])

/-- Read the dict value a reference points to. -/
def readDict (r : Nat) : M Dict := fun s => (Except.ok (s.getD r []), s, [])

/-- Python `d.copy()`: allocate a fresh dict holding the same entries
and return its reference. -/
def copyDict (r : Nat) : M Nat := fun s =>
  (Except.ok s.length, s ++ [s.getD r []], [])

/-- Python `d[k] = v` through a reference: mutate the dict in place. -/
def setItem (r : Nat) (k v : String) : M Unit := fun s =>
  (Except.ok (), s.set r (dictSet (s.getD r []) k v), [])

/-- Python `try body finally fin`: `fin` always runs; an exception
raised by `fin` replaces the body's outcome. -/
def pyTryFinally {α : Type} (body : M α) (fin : M Unit) : M α := fun s =>
  match body s with
  | (Except.ok a, s1, t1) =>
    match fin s1 with
    | (Except.ok _, s2, t2) => (Except.ok a, s2, t1 ++ t2)
    | (Except.error e, s2, t2) => (Except.error e, s2, t1 ++ t2)
  | (Except.error e, s1, t1) =>
    match fin s1 with
    | (Except.ok _, s2, t2) => (Except.error e, s2, t1 ++ t2)
    | (Except.error e2, s2, t2) => (Except.error e2, s2, t1 ++ t2)

/-- Modelled from the spec: `run_shell` (from the repository's `common`
module, absent from `src/`) executes the argument list as a subprocess
and captures its combined output as text. The invocation is recorded in
the trace; the output text is the `shell_out` oracle's answer. -/
def run_shell (env : Env) (cog_instance : CogInstance) (commands : List String)
    (interactive : Bool) : M String := do
  emit (Effect.shell cog_instance commands interactive)
  pure (env.shell_out cog_instance commands interactive)

/-- `run_migrations` from `postgres.py`. -/
def run_migrations (env : Env) (cog_instance : CogInstance) (config : Nat)
    (trace : Bool := false) : M String := do
  let temp_config ← copyDict config
  setItem temp_config "database" (db_name cog_instance)
  let commands := [env.piccolo_path, "migrations", "forwards", env.root_stem]
  let commands := if trace then commands ++ ["--trace"] else commands
  run_shell env cog_instance commands false

/-- `reverse_migration` from `postgres.py`. -/
def reverse_migration (env : Env) (cog_instance : CogInstance) (config : Nat)
    (timestamp : String) (trace : Bool := false) : M String := do
  let temp_config ← copyDict config
  setItem temp_config "database" (db_name cog_instance)
  let commands := [env.piccolo_path, "migrations", "backwards", env.root_stem, timestamp]
  let commands := if trace then commands ++ ["--trace"] else commands
  run_shell env cog_instance commands false

/-- `create_migrations` from `postgres.py`. -/
def create_migrations (env : Env) (cog_instance : CogInstance) (config : Nat)
    (trace : Bool := false) (description : Option String := none) : M String := do
  let temp_config ← copyDict config
  setItem temp_config "database" (db_name cog_instance)
  let commands := [env.piccolo_path, "migrations", "new", env.root_stem, "--auto"]
  let commands := if trace then commands ++ ["--trace"] else commands
  let commands := match description with
    | some d => commands ++ ["--desc=" ++ d]
    | none => commands
  run_shell env cog_instance commands true

/-- `diagnose_issues` from `postgres.py`. -/
def diagnose_issues (env : Env) (cog_instance : CogInstance) (config : Nat) : M String := do
  let piccolo_path := env.piccolo_path
  let temp_config ← copyDict config
  setItem temp_config "database" (db_name cog_instance)
  let diagnoses ← run_shell env cog_instance [piccolo_path, "--diagnose"] false
  let check ← run_shell env cog_instance [piccolo_path, "migrations", "check"] false
  pure (diagnoses ++ "\n" ++ check)

/-- `ensure_database_exists` from `postgres.py`. -/
def ensure_database_exists (env : Env) (cog_instance : CogInstance)
    (config : Nat) : M Bool := do
  let cfg ← readDict config
  emit (Effect.connect cfg 10)
  if env.connect_raises then
    throwErr Err.driverError
  else
    let database_name := db_name cog_instance
    pyTryFinally
      (do
        emit (Effect.fetch "SELECT datname FROM pg_database;")
        if env.fetch_raises then
          throwErr Err.driverError
        else
          if database_name ∈ env.datnames then
            pure false
          else do
            emit (Effect.execute ("CREATE DATABASE " ++ database_name ++ ";"))
            if env.execute_raises then
              throwErr Err.driverError
            else
              pure true)
      (emit Effect.closeConn)

/-- `acquire_db_engine` from `postgres.py`: the blocking constructor is
dispatched to a thread and awaited with a 10-unit timeout; on timeout a
`ConnectionTimeoutError` is raised. -/
def acquire_db_engine (env : Env) (config : Nat)
    (extensions : List String) : M PostgresEngine := do
  let cfg ← readDict config
  emit (Effect.engineCtor cfg extensions)
  if env.engine_times_out then
    throwErr (Err.ConnectionTimeoutError "Database connection timed out")
  else
    pure { config := cfg, extensions := extensions }

/-- The loop `for table_class in tables: table_class._meta.db = engine`;
tables are identified by index and binding is recorded in the trace. -/
def bindTables : List Nat → M Unit
  | [] => pure ()
  | t :: ts => do
    emit (Effect.bindTable t)
    bindTables ts

/-- Python's statement-level `if` without `else`, as a computation. -/
def pyWhen (c : Bool) (x : M Unit) : M Unit :=
  if c then x else pure ()

/-- `register_cog` from `postgres.py`. -/
def register_cog (env : Env) (cog_instance : CogInstance) (tables : List Nat)
    (config : Nat) (trace : Bool := false) (max_size : Nat := 20)
    (min_size : Nat := 1) (skip_migrations : Bool := false)
    (extensions : List String := ["uuid-ossp"]) : M PostgresEngine := do
  if env.is_unc then
    throwErr (Err.UNCPathError
      ("UNC paths are not supported, please move the cog's location: " ++ env.root_str))
  else if !env.is_dir then
    throwErr (Err.DirectoryError
      ("Cog files are not in a valid directory: " ++ env.root_str))
  else do
    let created ← ensure_database_exists env cog_instance config
    pyWhen created
      (emit (Effect.logInfo ("New database created for " ++ env.root_stem)))
    pyWhen (!skip_migrations) (do
      emit (Effect.logInfo "Running migrations, if any")
      let result ← run_migrations env cog_instance config trace
      if strContains result "No migrations need to be run" then
        emit (Effect.logInfo "No migrations needed ✓")
      else do
        emit (Effect.logInfo ("Migration result...\n" ++ result))
        pyWhen (strContains result "Traceback") (do
          let diagnoses ← diagnose_issues env cog_instance config
          emit (Effect.logError (diagnoses ++ "\nOne or more migrations failed to run!"))))
    let temp_config ← copyDict config
    setItem temp_config "database" (db_name cog_instance)
    emit (Effect.logDebug "Fetching database engine")
    let engine ← acquire_db_engine env temp_config extensions
    emit (Effect.logDebug "Database engine acquired, starting pool")
    emit (Effect.startPool min_size max_size)
    emit (Effect.logInfo "Database connection pool started ✓")
    bindTables tables
    pure engine

/-- Is an effect a SQL statement execution (`conn.execute`)? -/
def isExecuteEffect : Effect → Bool
  | .execute _ => true
  | _ => false

/-- Is an effect a subprocess invocation (`run_shell`)? -/
def isShellEffect : Effect → Bool
  | .shell _ _ _ => true
  | _ => false

/-- A computation preserves every store entry below index `r+1`: the
dict the caller's reference `r` points to is unchanged by the call. -/
def PresAt (r : Nat) (x : M α) : Prop :=
  ∀ s : Store, r < s.length →
    r < ((x s).2.1).length ∧ ((x s).2.1).getD r [] = s.getD r []

/-- A concrete environment for witnesses: the scenario of the spec,
path `/plugins/Economy` with config `{host: x, user: y, password: z}`. -/
def baseEnv : Env where
  is_unc := false
  is_dir := true
  root_stem := "Economy"
  root_str := "/plugins/Economy"
  piccolo_path := "piccolo"
  datnames := ["postgres", "template1"]
  connect_raises := false
  fetch_raises := false
  execute_raises := false
  shell_out := fun _ _ _ => "No migrations need to be run"
  engine_times_out := false

/-- The plugin identity of the witness scenario. -/
def cog0 : CogInstance := CogInstance.path "Economy"

/-- The witness store: one config dict at reference 0. -/
def store0 : Store := [[("host", "x"), ("user", "y"), ("password", "z")]]

/-- An environment whose migration run prints both marker phrases: the
no-op phrase and a traceback. -/
def bothPhrasesEnv : Env :=
  { baseEnv with
    shell_out := fun _ args _ =>
      if args = ["piccolo", "migrations", "forwards", "Economy"] then
        "No migrations need to be run\nTraceback (most recent call last):"
      else "diag" }

/-- An environment whose migration run prints a traceback only. -/
def tracebackEnv : Env :=
  { baseEnv with
    shell_out := fun _ args _ =>
      if args = ["piccolo", "--diagnose"] then "diagnose output"
      else if args = ["piccolo", "migrations", "check"] then "check output"
      else "Traceback (most recent call last):" }

theorem Mbind_eq {α β : Type} (x : M α) (f : α → M β) : x >>= f = M.bind x f := rfl

theorem Mpure_eq {α : Type} (a : α) : (pure a : M α) = M.pure a := rfl

theorem toNat_ofNat_valid (n : Nat) (h : n < 0xd800) : (Char.ofNat n).toNat = n := by
  unfold Char.ofNat
  rw [dif_pos (Or.inl (by exact_mod_cast h))]
  rfl

theorem toLower_idem (c : Char) : Char.toLower (Char.toLower c) = Char.toLower c := by
  unfold Char.toLower
  by_cases h : c.toNat ≥ 65 ∧ c.toNat ≤ 90
  · rw [if_pos h]
    have hv : (Char.ofNat (c.toNat + 32)).toNat = c.toNat + 32 :=
      toNat_ofNat_valid _ (by omega)
    rw [if_neg (by omega)]
  · rw [if_neg h, if_neg h]

theorem bindTables_run (ts : List Nat) (s : Store) :
    bindTables ts s = (Except.ok (), s, ts.map Effect.bindTable) := by
  induction ts with
  | nil => rfl
  | cons t ts ih =>
    simp [bindTables, Mbind_eq, M.bind, emit, ih]

/-- C7: `db_name` is a pure function of the plugin identity (hence
deterministic across repeated calls), equal to the lowercased path stem
for a `Path` identity and the lowercased qualified name for a cog
instance, and its result is already lowercase (lowercasing it again
changes nothing). -/
theorem C7_db_name_deterministic_lowercase :
    (∀ stem, db_name (CogInstance.path stem) = pyLower stem) ∧
    (∀ qn, db_name (CogInstance.cog qn) = pyLower qn) ∧
    (∀ c, pyLower (db_name c) = db_name c) := by
  refine ⟨fun _ => rfl, fun _ => rfl, fun c => ?_⟩
  cases c <;> simp [db_name, pyLower, List.map_map, Function.comp_def, toLower_idem]

/-- C4: a UNC root makes `register_cog` raise `UNCPathError`, and a
root that is not an existing directory makes it raise `DirectoryError`;
in both cases the store is untouched and the effect trace is empty, so
no database connection is opened and no subprocess is run. -/
theorem C4_path_validation_before_provisioning (env : Env) (cog : CogInstance)
    (tables : List Nat) (r : Nat) (s : Store) (tr : Bool) (mx mn : Nat)
    (sk : Bool) (exts : List String) :
    (env.is_unc = true →
      register_cog env cog tables r tr mx mn sk exts s =
        (Except.error (Err.UNCPathError
          ("UNC paths are not supported, please move the cog's location: " ++ env.root_str)),
         s, [])) ∧
    (env.is_unc = false → env.is_dir = false →
      register_cog env cog tables r tr mx mn sk exts s =
        (Except.error (Err.DirectoryError
          ("Cog files are not in a valid directory: " ++ env.root_str)),
         s, [])) := by
  constructor
  · intro h
    simp [register_cog, Mbind_eq, M.bind, throwErr, h]
  · intro h1 h2
    simp [register_cog, Mbind_eq, M.bind, throwErr, h1, h2]

theorem C4_witness :
    register_cog { baseEnv with is_unc := true } cog0 [0] 0 false 20 1 false ["uuid-ossp"] store0 =
      (Except.error (Err.UNCPathError
        ("UNC paths are not supported, please move the cog's location: " ++
          ({ baseEnv with is_unc := true } : Env).root_str)), store0, []) ∧
    register_cog { baseEnv with is_dir := false } cog0 [0] 0 false 20 1 false ["uuid-ossp"] store0 =
      (Except.error (Err.DirectoryError
        ("Cog files are not in a valid directory: " ++
          ({ baseEnv with is_dir := false } : Env).root_str)), store0, []) :=
  ⟨(C4_path_validation_before_provisioning { baseEnv with is_unc := true } cog0 [0] 0 store0
      false 20 1 false ["uuid-ossp"]).1 rfl,
   (C4_path_validation_before_provisioning { baseEnv with is_dir := false } cog0 [0] 0 store0
      false 20 1 false ["uuid-ossp"]).2 rfl rfl⟩

/-- C6: with a live administrative connection, `ensure_database_exists`
returns `true` exactly when the derived name is absent from the
`SELECT datname FROM pg_database` rows, and then issues exactly one
`CREATE DATABASE` statement for that name; when the name is present it
returns `false` and issues no creation statement. -/
theorem C6_ensure_database_exists_create_once (env : Env) (cog : CogInstance)
    (r : Nat) (s : Store) (hC : env.connect_raises = false)
    (hF : env.fetch_raises = false) (hE : env.execute_raises = false) :
    ((ensure_database_exists env cog r s).1 = Except.ok true ↔
      db_name cog ∉ env.datnames) ∧
    ((ensure_database_exists env cog r s).1 = Except.ok false ↔
      db_name cog ∈ env.datnames) ∧
    (db_name cog ∉ env.datnames →
      (ensure_database_exists env cog r s).2.2.filter isExecuteEffect =
        [Effect.execute ("CREATE DATABASE " ++ db_name cog ++ ";")]) ∧
    (db_name cog ∈ env.datnames →
      (ensure_database_exists env cog r s).2.2.filter isExecuteEffect = []) := by
  by_cases hc : db_name cog ∈ env.datnames <;>
    simp [ensure_database_exists, Mbind_eq, Mpure_eq, M.bind, M.pure, emit, readDict,
      throwErr, pyTryFinally, hC, hF, hE, hc, isExecuteEffect]

theorem C6_witness :
    db_name cog0 = "economy" ∧
    (ensure_database_exists baseEnv cog0 0 store0).1 = Except.ok true ∧
    (ensure_database_exists baseEnv cog0 0 store0).2.2.filter isExecuteEffect =
      [Effect.execute ("CREATE DATABASE " ++ db_name cog0 ++ ";")] :=
  ⟨by decide,
   (C6_ensure_database_exists_create_once baseEnv cog0 0 store0 rfl rfl rfl).1.mpr
     (by decide),
   (C6_ensure_database_exists_create_once baseEnv cog0 0 store0 rfl rfl rfl).2.2.1
     (by decide)⟩

/-- C9: once the administrative connection has been opened (the connect
call did not itself fail), `ensure_database_exists` closes it on every
exit path: database present, database created, fetch error, or creation
error. -/
theorem C9_admin_connection_closed (env : Env) (cog : CogInstance)
    (r : Nat) (s : Store) (hC : env.connect_raises = false) :
    Effect.closeConn ∈ (ensure_database_exists env cog r s).2.2 := by
  by_cases hc : db_name cog ∈ env.datnames <;>
    cases hF : env.fetch_raises <;> cases hE : env.execute_raises <;>
    simp [ensure_database_exists, Mbind_eq, Mpure_eq, M.bind, M.pure, emit, readDict,
      throwErr, pyTryFinally, hC, hF, hE, hc]

theorem C9_witness :
    Effect.closeConn ∈ (ensure_database_exists baseEnv cog0 0 store0).2.2 :=
  C9_admin_connection_closed baseEnv cog0 0 store0 rfl

/-- C10: the subprocess command lists and shell-runner inputs built by
`run_migrations`, `reverse_migration` and `create_migrations` do not
depend on the connection configuration: for any two configurations
(stores and references) and the same identity, trace flag, timestamp
and description, the outcome and the whole effect trace coincide. -/
theorem C10_config_noninterference (env : Env) (cog : CogInstance)
    (r1 r2 : Nat) (s1 s2 : Store) (tr : Bool) (ts : String) (d : Option String) :
    ((run_migrations env cog r1 tr s1).1 = (run_migrations env cog r2 tr s2).1 ∧
     (run_migrations env cog r1 tr s1).2.2 = (run_migrations env cog r2 tr s2).2.2) ∧
    ((reverse_migration env cog r1 ts tr s1).1 = (reverse_migration env cog r2 ts tr s2).1 ∧
     (reverse_migration env cog r1 ts tr s1).2.2 = (reverse_migration env cog r2 ts tr s2).2.2) ∧
    ((create_migrations env cog r1 tr d s1).1 = (create_migrations env cog r2 tr d s2).1 ∧
     (create_migrations env cog r1 tr d s1).2.2 = (create_migrations env cog r2 tr d s2).2.2) :=
  ⟨⟨rfl, rfl⟩, ⟨rfl, rfl⟩, ⟨rfl, rfl⟩⟩

set_option maxHeartbeats 1000000 in
/-- C2: whatever text the migration tool prints, `register_cog` does not
raise on account of it: with a valid directory, healthy administrative
connection and a timely engine construction, it returns the engine
built from the copied config with the overridden database name, acquired
the engine, started the pool, and bound every table. -/
theorem C2_migration_failure_not_raised (env : Env) (cog : CogInstance)
    (tables : List Nat) (r : Nat) (s : Store) (tr : Bool) (mx mn : Nat)
    (exts : List String) (hr : r < s.length)
    (hU : env.is_unc = false) (hD : env.is_dir = true)
    (hC : env.connect_raises = false) (hF : env.fetch_raises = false)
    (hE : env.execute_raises = false) (hTO : env.engine_times_out = false) :
    (register_cog env cog tables r tr mx mn false exts s).1 =
      Except.ok ⟨dictSet (s.getD r []) "database" (db_name cog), exts⟩ ∧
    Effect.engineCtor (dictSet (s.getD r []) "database" (db_name cog)) exts ∈
      (register_cog env cog tables r tr mx mn false exts s).2.2 ∧
    Effect.startPool mn mx ∈ (register_cog env cog tables r tr mx mn false exts s).2.2 ∧
    ∀ t ∈ tables, Effect.bindTable t ∈ (register_cog env cog tables r tr mx mn false exts s).2.2 := by
  cases tr <;>
  by_cases hc : db_name cog ∈ env.datnames <;>
  cases hn : strContains (env.shell_out cog [env.piccolo_path, "migrations", "forwards", env.root_stem] false) "No migrations need to be run" <;>
  cases hn2 : strContains (env.shell_out cog [env.piccolo_path, "migrations", "forwards", env.root_stem, "--trace"] false) "No migrations need to be run" <;>
  cases ht : strContains (env.shell_out cog [env.piccolo_path, "migrations", "forwards", env.root_stem] false) "Traceback" <;>
  cases ht2 : strContains (env.shell_out cog [env.piccolo_path, "migrations", "forwards", env.root_stem, "--trace"] false) "Traceback" <;>
  simp [register_cog, Mbind_eq, Mpure_eq, M.bind, M.pure, throwErr, emit, readDict,
    copyDict, setItem, pyTryFinally, ensure_database_exists, run_migrations, diagnose_issues,
    run_shell, acquire_db_engine, bindTables_run, pyWhen, hU, hD, hC, hF, hE, hTO, hc, hn, hn2, ht, ht2, hr,
    List.getElem?_append_left, List.getElem?_append_right, List.getElem?_concat_length,
    List.getElem_append_right, List.getElem_append_left, Nat.add_sub_cancel_left]

theorem C2_witness :
    (register_cog baseEnv cog0 [0] 0 false 20 1 false ["uuid-ossp"] store0).1 =
      Except.ok ⟨dictSet (store0.getD 0 []) "database" (db_name cog0), ["uuid-ossp"]⟩ ∧
    Effect.engineCtor (dictSet (store0.getD 0 []) "database" (db_name cog0)) ["uuid-ossp"] ∈
      (register_cog baseEnv cog0 [0] 0 false 20 1 false ["uuid-ossp"] store0).2.2 ∧
    Effect.startPool 1 20 ∈ (register_cog baseEnv cog0 [0] 0 false 20 1 false ["uuid-ossp"] store0).2.2 ∧
    ∀ t ∈ [0], Effect.bindTable t ∈
      (register_cog baseEnv cog0 [0] 0 false 20 1 false ["uuid-ossp"] store0).2.2 :=
  C2_migration_failure_not_raised baseEnv cog0 [0] 0 store0 false 20 1 ["uuid-ossp"]
    (by decide) rfl rfl rfl rfl rfl rfl

set_option maxHeartbeats 1000000 in
/-- C3: when engine construction exceeds its timeout,
`acquire_db_engine` fails with `ConnectionTimeoutError`, `register_cog`
propagates that failure, and the trace of `register_cog` contains no
pool start and no table binding. -/
theorem C3_engine_timeout (env : Env) (cog : CogInstance) (tables : List Nat)
    (r : Nat) (s : Store) (tr : Bool) (mx mn : Nat) (sk : Bool) (exts : List String)
    (hU : env.is_unc = false) (hD : env.is_dir = true)
    (hC : env.connect_raises = false) (hF : env.fetch_raises = false)
    (hE : env.execute_raises = false) (hTO : env.engine_times_out = true) :
    (∀ c exts2 s2, (acquire_db_engine env c exts2 s2).1 =
      Except.error (Err.ConnectionTimeoutError "Database connection timed out")) ∧
    (register_cog env cog tables r tr mx mn sk exts s).1 =
      Except.error (Err.ConnectionTimeoutError "Database connection timed out") ∧
    (∀ a b, Effect.startPool a b ∉ (register_cog env cog tables r tr mx mn sk exts s).2.2) ∧
    (∀ t, Effect.bindTable t ∉ (register_cog env cog tables r tr mx mn sk exts s).2.2) := by
  refine ⟨fun c exts2 s2 => by simp [acquire_db_engine, Mbind_eq, Mpure_eq, M.bind, M.pure,
    emit, readDict, throwErr, hTO], ?_⟩
  cases sk <;> cases tr <;>
  by_cases hc : db_name cog ∈ env.datnames <;>
  cases hn : strContains (env.shell_out cog [env.piccolo_path, "migrations", "forwards", env.root_stem] false) "No migrations need to be run" <;>
  cases hn2 : strContains (env.shell_out cog [env.piccolo_path, "migrations", "forwards", env.root_stem, "--trace"] false) "No migrations need to be run" <;>
  cases ht : strContains (env.shell_out cog [env.piccolo_path, "migrations", "forwards", env.root_stem] false) "Traceback" <;>
  cases ht2 : strContains (env.shell_out cog [env.piccolo_path, "migrations", "forwards", env.root_stem, "--trace"] false) "Traceback" <;>
  simp [register_cog, Mbind_eq, Mpure_eq, M.bind, M.pure, throwErr, emit, readDict,
    copyDict, setItem, pyTryFinally, ensure_database_exists, run_migrations, diagnose_issues,
    run_shell, acquire_db_engine, bindTables_run, pyWhen, hU, hD, hC, hF, hE, hTO, hc, hn, hn2, ht, ht2,
    List.getElem?_append_left, List.getElem?_append_right, List.getElem?_concat_length,
    List.getElem_append_right, List.getElem_append_left, Nat.add_sub_cancel_left]

theorem C3_witness :
    (acquire_db_engine { baseEnv with engine_times_out := true } 0 ["uuid-ossp"] store0).1 =
      Except.error (Err.ConnectionTimeoutError "Database connection timed out") ∧
    (register_cog { baseEnv with engine_times_out := true } cog0 [0] 0 false 20 1 false
        ["uuid-ossp"] store0).1 =
      Except.error (Err.ConnectionTimeoutError "Database connection timed out") ∧
    Effect.startPool 1 20 ∉
      (register_cog { baseEnv with engine_times_out := true } cog0 [0] 0 false 20 1 false
        ["uuid-ossp"] store0).2.2 ∧
    Effect.bindTable 0 ∉
      (register_cog { baseEnv with engine_times_out := true } cog0 [0] 0 false 20 1 false
        ["uuid-ossp"] store0).2.2 :=
  ⟨(C3_engine_timeout { baseEnv with engine_times_out := true } cog0 [0] 0 store0 false 20 1
      false ["uuid-ossp"] rfl rfl rfl rfl rfl rfl).1 0 ["uuid-ossp"] store0,
   (C3_engine_timeout { baseEnv with engine_times_out := true } cog0 [0] 0 store0 false 20 1
      false ["uuid-ossp"] rfl rfl rfl rfl rfl rfl).2.1,
   (C3_engine_timeout { baseEnv with engine_times_out := true } cog0 [0] 0 store0 false 20 1
      false ["uuid-ossp"] rfl rfl rfl rfl rfl rfl).2.2.1 1 20,
   (C3_engine_timeout { baseEnv with engine_times_out := true } cog0 [0] 0 store0 false 20 1
      false ["uuid-ossp"] rfl rfl rfl rfl rfl rfl).2.2.2 0⟩

set_option maxHeartbeats 1000000 in
/-- C5: when the migration output contains the no-op phrase,
`register_cog` logs "No migrations needed" at info level, runs exactly
one subprocess (the forwards migration itself, so no diagnostic
sub-calls), and logs no error. -/
theorem C5_noop_skips_diagnostics (env : Env) (cog : CogInstance)
    (tables : List Nat) (r : Nat) (s : Store) (tr : Bool) (mx mn : Nat)
    (exts : List String)
    (hU : env.is_unc = false) (hD : env.is_dir = true)
    (hC : env.connect_raises = false) (hF : env.fetch_raises = false)
    (hE : env.execute_raises = false)
    (hn : strContains (env.shell_out cog
      (if tr then [env.piccolo_path, "migrations", "forwards", env.root_stem, "--trace"]
       else [env.piccolo_path, "migrations", "forwards", env.root_stem]) false)
      "No migrations need to be run" = true) :
    Effect.logInfo "No migrations needed ✓" ∈
      (register_cog env cog tables r tr mx mn false exts s).2.2 ∧
    (register_cog env cog tables r tr mx mn false exts s).2.2.filter isShellEffect =
      [Effect.shell cog
        (if tr then [env.piccolo_path, "migrations", "forwards", env.root_stem, "--trace"]
         else [env.piccolo_path, "migrations", "forwards", env.root_stem]) false] ∧
    ∀ m, Effect.logError m ∉ (register_cog env cog tables r tr mx mn false exts s).2.2 := by
  cases tr <;>
  by_cases hc : db_name cog ∈ env.datnames <;>
  cases hTO : env.engine_times_out <;>
  simp only [if_true, if_false, Bool.false_eq_true, Bool.true_eq_false, ite_true, ite_false] at hn <;>
  simp [register_cog, Mbind_eq, Mpure_eq, M.bind, M.pure, throwErr, emit, readDict,
    copyDict, setItem, pyTryFinally, ensure_database_exists, run_migrations, diagnose_issues,
    run_shell, acquire_db_engine, bindTables_run, pyWhen, isShellEffect,
    hU, hD, hC, hF, hE, hTO, hc, hn,
    List.getElem?_append_left, List.getElem?_append_right, List.getElem?_concat_length,
    List.getElem_append_right, List.getElem_append_left, Nat.add_sub_cancel_left]

theorem C5_witness :
    Effect.logInfo "No migrations needed ✓" ∈
      (register_cog baseEnv cog0 [0] 0 false 20 1 false ["uuid-ossp"] store0).2.2 ∧
    (register_cog baseEnv cog0 [0] 0 false 20 1 false ["uuid-ossp"] store0).2.2.filter isShellEffect =
      [Effect.shell cog0 ["piccolo", "migrations", "forwards", "Economy"] false] ∧
    ∀ m, Effect.logError m ∉
      (register_cog baseEnv cog0 [0] 0 false 20 1 false ["uuid-ossp"] store0).2.2 :=
  C5_noop_skips_diagnostics baseEnv cog0 [0] 0 store0 false 20 1 ["uuid-ossp"]
    rfl rfl rfl rfl rfl (by decide)

/-- C1 counterexample: a migration output can contain the word
"Traceback" and yet trigger neither diagnostic sub-call, because the
no-op phrase is checked first: with output containing both phrases,
`register_cog` runs no `--diagnose` and no `migrations check`
subprocess. -/
theorem C1_counterexample :
    strContains (bothPhrasesEnv.shell_out cog0
      ["piccolo", "migrations", "forwards", "Economy"] false) "Traceback" = true ∧
    Effect.shell cog0 ["piccolo", "--diagnose"] false ∉
      (register_cog bothPhrasesEnv cog0 [0] 0 false 20 1 false ["uuid-ossp"] store0).2.2 ∧
    Effect.shell cog0 ["piccolo", "migrations", "check"] false ∉
      (register_cog bothPhrasesEnv cog0 [0] 0 false 20 1 false ["uuid-ossp"] store0).2.2 := by
  decide

set_option maxHeartbeats 1000000 in
/-- C1 (amended): for every migration output containing "Traceback" and
not containing the no-op phrase "No migrations need to be run",
`register_cog` triggers both diagnostic sub-calls (`--diagnose` and
`migrations check`) and logs their concatenated output as the error
report. -/
theorem C1_traceback_triggers_diagnostics (env : Env) (cog : CogInstance)
    (tables : List Nat) (r : Nat) (s : Store) (tr : Bool) (mx mn : Nat)
    (exts : List String)
    (hU : env.is_unc = false) (hD : env.is_dir = true)
    (hC : env.connect_raises = false) (hF : env.fetch_raises = false)
    (hE : env.execute_raises = false)
    (hn : strContains (env.shell_out cog
      (if tr then [env.piccolo_path, "migrations", "forwards", env.root_stem, "--trace"]
       else [env.piccolo_path, "migrations", "forwards", env.root_stem]) false)
      "No migrations need to be run" = false)
    (ht : strContains (env.shell_out cog
      (if tr then [env.piccolo_path, "migrations", "forwards", env.root_stem, "--trace"]
       else [env.piccolo_path, "migrations", "forwards", env.root_stem]) false)
      "Traceback" = true) :
    Effect.shell cog [env.piccolo_path, "--diagnose"] false ∈
      (register_cog env cog tables r tr mx mn false exts s).2.2 ∧
    Effect.shell cog [env.piccolo_path, "migrations", "check"] false ∈
      (register_cog env cog tables r tr mx mn false exts s).2.2 ∧
    Effect.logError (env.shell_out cog [env.piccolo_path, "--diagnose"] false ++ "\n" ++
        env.shell_out cog [env.piccolo_path, "migrations", "check"] false ++
        "\nOne or more migrations failed to run!") ∈
      (register_cog env cog tables r tr mx mn false exts s).2.2 := by
  cases tr <;>
  by_cases hc : db_name cog ∈ env.datnames <;>
  cases hTO : env.engine_times_out <;>
  simp only [if_true, if_false, Bool.false_eq_true, Bool.true_eq_false, ite_true, ite_false]
    at hn ht <;>
  simp [register_cog, Mbind_eq, Mpure_eq, M.bind, M.pure, throwErr, emit, readDict,
    copyDict, setItem, pyTryFinally, ensure_database_exists, run_migrations, diagnose_issues,
    run_shell, acquire_db_engine, bindTables_run, pyWhen,
    hU, hD, hC, hF, hE, hTO, hc, hn, ht,
    List.getElem?_append_left, List.getElem?_append_right, List.getElem?_concat_length,
    List.getElem_append_right, List.getElem_append_left, Nat.add_sub_cancel_left]

theorem C1_witness :
    Effect.shell cog0 ["piccolo", "--diagnose"] false ∈
      (register_cog tracebackEnv cog0 [0] 0 false 20 1 false ["uuid-ossp"] store0).2.2 ∧
    Effect.shell cog0 ["piccolo", "migrations", "check"] false ∈
      (register_cog tracebackEnv cog0 [0] 0 false 20 1 false ["uuid-ossp"] store0).2.2 ∧
    Effect.logError (tracebackEnv.shell_out cog0 ["piccolo", "--diagnose"] false ++ "\n" ++
        tracebackEnv.shell_out cog0 ["piccolo", "migrations", "check"] false ++
        "\nOne or more migrations failed to run!") ∈
      (register_cog tracebackEnv cog0 [0] 0 false 20 1 false ["uuid-ossp"] store0).2.2 :=
  C1_traceback_triggers_diagnostics tracebackEnv cog0 [0] 0 store0 false 20 1 ["uuid-ossp"]
    rfl rfl rfl rfl rfl (by decide) (by decide)

theorem PresAt.mpure {α : Type} (r : Nat) (a : α) : PresAt r (pure a : M α) :=
  fun _ hs => ⟨hs, rfl⟩

theorem PresAt.memit (r : Nat) (e : Effect) : PresAt r (emit e) :=
  fun _ hs => ⟨hs, rfl⟩

theorem PresAt.mthrow {α : Type} (r : Nat) (e : Err) : PresAt r (throwErr e : M α) :=
  fun _ hs => ⟨hs, rfl⟩

theorem PresAt.mread (r q : Nat) : PresAt r (readDict q) :=
  fun _ hs => ⟨hs, rfl⟩

theorem PresAt.bind {α β : Type} {r : Nat} {x : M α} {f : α → M β}
    (hx : PresAt r x) (hf : ∀ a, PresAt r (f a)) : PresAt r (x >>= f) := by
  intro s hs
  rw [Mbind_eq]
  unfold M.bind
  rcases hxs : x s with ⟨res, s1, t1⟩
  obtain ⟨h1, h2⟩ := hx s hs
  rw [hxs] at h1 h2
  dsimp only at h1 h2
  cases res with
  | error e => exact ⟨h1, h2⟩
  | ok a =>
    obtain ⟨h3, h4⟩ := hf a s1 h1
    rcases hfs : f a s1 with ⟨res2, s2, t2⟩
    rw [hfs] at h3 h4
    dsimp only at h3 h4
    simp only [hfs]
    exact ⟨h3, h4.trans h2⟩

theorem PresAt.ite {α : Type} {r : Nat} {c : Prop} [Decidable c] {x y : M α}
    (hx : PresAt r x) (hy : PresAt r y) : PresAt r (if c then x else y) := by
  by_cases h : c
  · rw [if_pos h]; exact hx
  · rw [if_neg h]; exact hy

theorem copySet_eq {β : Type} (q : Nat) (k v : String) (rest : Nat → M β) (s : Store) :
    (copyDict q >>= fun t => setItem t k v >>= fun _ => rest t) s =
      rest s.length (s ++ [dictSet (s.getD q []) k v]) := by
  simp [Mbind_eq, M.bind, copyDict, setItem, List.getElem?_concat_length,
    Nat.sub_self]

theorem PresAt.copySet {β : Type} {r : Nat} (q : Nat) (k v : String)
    {rest : Nat → M β} (hrest : ∀ t, PresAt r (rest t)) :
    PresAt r (copyDict q >>= fun t => setItem t k v >>= fun _ => rest t) := by
  intro s hs
  rw [copySet_eq]
  obtain ⟨h1, h2⟩ := hrest s.length (s ++ [dictSet (s.getD q []) k v])
    (by simp; omega)
  refine ⟨h1, h2.trans ?_⟩
  simp [List.getD_eq_getElem?_getD, List.getElem?_append_left hs]

theorem run_shell_pres (r : Nat) (env : Env) (cog : CogInstance)
    (cmds : List String) (i : Bool) : PresAt r (run_shell env cog cmds i) := by
  unfold run_shell
  exact PresAt.bind (PresAt.memit r _) (fun _ => PresAt.mpure r _)

theorem run_migrations_pres (r : Nat) (env : Env) (cog : CogInstance)
    (q : Nat) (tr : Bool) : PresAt r (run_migrations env cog q tr) := by
  unfold run_migrations
  exact PresAt.copySet q _ _ (fun _ => run_shell_pres r env cog _ _)

theorem reverse_migration_pres (r : Nat) (env : Env) (cog : CogInstance)
    (q : Nat) (ts : String) (tr : Bool) : PresAt r (reverse_migration env cog q ts tr) := by
  unfold reverse_migration
  exact PresAt.copySet q _ _ (fun _ => run_shell_pres r env cog _ _)

theorem create_migrations_pres (r : Nat) (env : Env) (cog : CogInstance)
    (q : Nat) (tr : Bool) (d : Option String) :
    PresAt r (create_migrations env cog q tr d) := by
  unfold create_migrations
  exact PresAt.copySet q _ _ (fun _ => run_shell_pres r env cog _ _)

theorem diagnose_issues_pres (r : Nat) (env : Env) (cog : CogInstance)
    (q : Nat) : PresAt r (diagnose_issues env cog q) := by
  unfold diagnose_issues
  exact PresAt.copySet q _ _ (fun _ =>
    PresAt.bind (run_shell_pres r env cog _ _) (fun _ =>
      PresAt.bind (run_shell_pres r env cog _ _) (fun _ => PresAt.mpure r _)))

theorem ensure_database_exists_pres (r : Nat) (env : Env) (cog : CogInstance)
    (q : Nat) : PresAt r (ensure_database_exists env cog q) := by
  intro s hs
  refine ⟨?_, ?_⟩ <;>
  · by_cases hc : db_name cog ∈ env.datnames <;>
    cases hC : env.connect_raises <;> cases hF : env.fetch_raises <;>
    cases hE : env.execute_raises <;>
    simp [ensure_database_exists, Mbind_eq, Mpure_eq, M.bind, M.pure, emit, readDict,
      throwErr, pyTryFinally, hC, hF, hE, hc, hs]

theorem acquire_db_engine_pres (r : Nat) (env : Env) (q : Nat)
    (exts : List String) : PresAt r (acquire_db_engine env q exts) := by
  unfold acquire_db_engine
  exact PresAt.bind (PresAt.mread r q) (fun _ =>
    PresAt.bind (PresAt.memit r _) (fun _ =>
      PresAt.ite (PresAt.mthrow r _) (PresAt.mpure r _)))

theorem bindTables_pres (r : Nat) (ts : List Nat) : PresAt r (bindTables ts) := by
  intro s hs
  rw [bindTables_run]
  exact ⟨hs, rfl⟩

theorem register_cog_pres (r : Nat) (env : Env) (cog : CogInstance)
    (tables : List Nat) (q : Nat) (tr : Bool) (mx mn : Nat) (sk : Bool)
    (exts : List String) :
    PresAt r (register_cog env cog tables q tr mx mn sk exts) := by
  unfold register_cog
  apply PresAt.ite (PresAt.mthrow r _)
  apply PresAt.ite (PresAt.mthrow r _)
  apply PresAt.bind (ensure_database_exists_pres r env cog q)
  intro created
  apply PresAt.bind (PresAt.ite (PresAt.memit r _) (PresAt.mpure r _))
  intro y1
  apply PresAt.bind
  · apply PresAt.ite
    · apply PresAt.bind (PresAt.memit r _)
      intro u1
      apply PresAt.bind (run_migrations_pres r env cog q tr)
      intro result
      apply PresAt.ite (PresAt.memit r _)
      apply PresAt.bind (PresAt.memit r _)
      intro u2
      apply PresAt.ite
      · apply PresAt.bind (diagnose_issues_pres r env cog q)
        intro diag
        exact PresAt.memit r _
      · exact PresAt.mpure r _
    · exact PresAt.mpure r _
  intro y2
  apply PresAt.copySet q _ _
  intro t
  apply PresAt.bind (PresAt.memit r _)
  intro u3
  apply PresAt.bind (acquire_db_engine_pres r env t exts)
  intro engine
  apply PresAt.bind (PresAt.memit r _)
  intro u4
  apply PresAt.bind (PresAt.memit r _)
  intro u5
  apply PresAt.bind (PresAt.memit r _)
  intro u6
  exact PresAt.bind (bindTables_pres r tables) (fun u7 => PresAt.mpure r _)

/-- C8: the caller's configuration mapping is never mutated: every
operation that receives a config reference (`register_cog`,
`run_migrations`, `reverse_migration`, `create_migrations`,
`diagnose_issues`, `ensure_database_exists`) leaves the dict the caller
passed in unchanged in the store; the database-name override happens
only on a fresh copy. -/
theorem C8_caller_config_not_mutated (env : Env) (cog : CogInstance)
    (tables : List Nat) (r : Nat) (s : Store) (tr : Bool) (mx mn : Nat)
    (sk : Bool) (exts : List String) (ts : String) (d : Option String)
    (hr : r < s.length) :
    ((register_cog env cog tables r tr mx mn sk exts s).2.1).getD r [] = s.getD r [] ∧
    ((run_migrations env cog r tr s).2.1).getD r [] = s.getD r [] ∧
    ((reverse_migration env cog r ts tr s).2.1).getD r [] = s.getD r [] ∧
    ((create_migrations env cog r tr d s).2.1).getD r [] = s.getD r [] ∧
    ((diagnose_issues env cog r s).2.1).getD r [] = s.getD r [] ∧
    ((ensure_database_exists env cog r s).2.1).getD r [] = s.getD r [] :=
  ⟨(register_cog_pres r env cog tables r tr mx mn sk exts s hr).2,
   (run_migrations_pres r env cog r tr s hr).2,
   (reverse_migration_pres r env cog r ts tr s hr).2,
   (create_migrations_pres r env cog r tr d s hr).2,
   (diagnose_issues_pres r env cog r s hr).2,
   (ensure_database_exists_pres r env cog r s hr).2⟩

theorem C8_witness :
    ((register_cog baseEnv cog0 [0] 0 false 20 1 false ["uuid-ossp"] store0).2.1).getD 0 [] =
      store0.getD 0 [] ∧
    ((run_migrations baseEnv cog0 0 false store0).2.1).getD 0 [] = store0.getD 0 [] ∧
    ((reverse_migration baseEnv cog0 0 "2024-01-01T00:00:00" false store0).2.1).getD 0 [] =
      store0.getD 0 [] ∧
    ((create_migrations baseEnv cog0 0 false (some "initial") store0).2.1).getD 0 [] =
      store0.getD 0 [] ∧
    ((diagnose_issues baseEnv cog0 0 store0).2.1).getD 0 [] = store0.getD 0 [] ∧
    ((ensure_database_exists baseEnv cog0 0 store0).2.1).getD 0 [] = store0.getD 0 [] :=
  C8_caller_config_not_mutated baseEnv cog0 [0] 0 store0 false 20 1 false ["uuid-ossp"]
    "2024-01-01T00:00:00" (some "initial") (by decide)
